import Mathlib

/-!
# Verification of the HaycashToolbox2 document-extraction spec

Shallow embedding, in Lean 4, of the parts of the repository that the
frozen claims talk about:

* `apps/cdf_isaac/app_isaac.py` — RFC person-type inference, century and
  birthday inference, the CSF/CFDI field parsers, the document-type
  classifier, the row aggregation to string tables, and the SAT activity
  matcher (lexical path);
* `apps/factoraje/factoraje_logic.py` — the supplier filters of
  `headers_from_xml` and `metrics_by_interval`;
* `apps/lector_contrato/app.py` — the anchor-window extractors.

Modelling conventions, used consistently below:

* Python `Optional[str]` becomes `Option String`; absent (`None`) is `none`.
* The Python `re` engine is external to the repository.  Where a function
  is generic in a pattern (the anchor-window extractors) or where whole
  regex matches are consumed as opaque values (the field parsers), the
  engine is abstracted as a function parameter carrying the match
  semantics; the pattern strings of the source are kept verbatim so the
  call sites can be compared with the source.  Small, closed-form regex
  operations (`[^A-Za-z0-9]` filtering, whitespace collapsing, upper
  casing, the `normalize_txt` pipeline) are implemented concretely.
* `date.today()` (the wall clock) is abstracted as an explicit `cur`
  parameter holding the current two-digit year, and dates compared in the
  factoring filters are abstracted as integers ordered like dates.
* The `jellyfish` Jaro-Winkler distance (an external library returning a
  float in [0,1]) is abstracted as a function parameter `jw` into `ℚ`;
  nothing proved below depends on its values beyond their order.
* Exceptions cannot occur in the embedded fragments (the embedding is
  total); "never raises" claims correspond to totality of the Lean
  functions.
-/

/-! ## Generic string helpers (app_isaac.py and shared) -/

/-- Python `str.upper()` restricted to the characters that actually occur in
the processed documents: ASCII plus the Spanish accented vowels and `ñ`/`ü`
(the only non-ASCII letters the source's patterns and tables mention). -/
def pyUpperChar (c : Char) : Char :=
  if c = 'á' then 'Á' else if c = 'é' then 'É' else if c = 'í' then 'Í'
  else if c = 'ó' then 'Ó' else if c = 'ú' then 'Ú' else if c = 'ü' then 'Ü'
  else if c = 'ñ' then 'Ñ' else c.toUpper

def pyUpper (s : String) : String :=
  String.mk (s.toList.map pyUpperChar)

/-- Python `str.lower()` on the same character range. -/
def pyLowerChar (c : Char) : Char :=
  if c = 'Á' then 'á' else if c = 'É' then 'é' else if c = 'Í' then 'í'
  else if c = 'Ó' then 'ó' else if c = 'Ú' then 'ú' else if c = 'Ü' then 'ü'
  else if c = 'Ñ' then 'ñ' else c.toLower

def pyLower (s : String) : String :=
  String.mk (s.toList.map pyLowerChar)

/-- `re.sub(r"[^A-Za-z0-9]", "", s)`: keep only ASCII alphanumerics. -/
def alnumOnly (s : String) : String :=
  String.mk (s.toList.filter fun c => c.isAlpha || c.isDigit)

/-- Python `str.strip()`: drop whitespace from both ends. -/
def pyStrip (s : String) : String :=
  String.mk (((s.toList.dropWhile Char.isWhitespace).reverse.dropWhile
    Char.isWhitespace).reverse)

/-- `re.sub(r"\s{2,}", " ", s)`: each run of two or more whitespace
characters becomes a single space; an isolated whitespace character is kept
as it is.  Run-length scanning, fuelled by the list length so that the
recursion is structural and the kernel can evaluate it (the fuel bound is
never reached: each step consumes at least one character). -/
def collapseWs2Aux : Nat → List Char → List Char
  | 0, _ => []
  | _ + 1, [] => []
  | fuel + 1, c :: rest =>
    if c.isWhitespace then
      (if (rest.takeWhile Char.isWhitespace).length = 0 then [c] else [' ']) ++
        collapseWs2Aux fuel (rest.dropWhile Char.isWhitespace)
    else c :: collapseWs2Aux fuel rest

def collapseWs2 (cs : List Char) : List Char :=
  collapseWs2Aux cs.length cs

/-- `s_trim` of app_isaac.py: collapse whitespace runs, then strip. -/
def s_trim (x : String) : String :=
  pyStrip (String.mk (collapseWs2 x.toList))

/-- `re.sub(r"\s+", " ", s)`: every whitespace run becomes one space
(fuelled the same way). -/
def collapseWsAllAux : Nat → List Char → List Char
  | 0, _ => []
  | _ + 1, [] => []
  | fuel + 1, c :: rest =>
    if c.isWhitespace then
      ' ' :: collapseWsAllAux fuel (rest.dropWhile Char.isWhitespace)
    else c :: collapseWsAllAux fuel rest

def collapseWsAll (cs : List Char) : List Char :=
  collapseWsAllAux cs.length cs

/-- `re.sub(r"\s+", "", s)`: remove all whitespace. -/
def removeWs (s : String) : String :=
  String.mk (s.toList.filter fun c => !c.isWhitespace)

/-- Left-pad a numeral with zeroes, as Python `f"{n:0wd}"` for `n ≥ 0`. -/
def padNum (w n : Nat) : String :=
  let s := toString n
  String.mk (List.replicate (w - s.length) '0') ++ s

/-- `safe_nzchar` of app_isaac.py on an optional string: `True` exactly for
a present, non-empty value. -/
def safe_nzchar (x : Option String) : Bool :=
  match x with
  | none => false
  | some s => s.length > 0

/-- Python `a or b` on optional strings as used throughout the parsers:
the first operand if it is truthy (present and non-empty), else the second. -/
def pyOr (a b : Option String) : Option String :=
  if safe_nzchar a then a else b

/-- `coalesce(a, b)` of app_isaac.py: `a` unless it is `None`. -/
def coalesce (a b : Option String) : Option String :=
  match a with
  | none => b
  | some s => some s

/-- Python `int(...)` applied to the identifier slices of the parsers:
defined exactly on non-empty all-digit strings (the only alphanumeric
slices the conversion accepts without raising; the `except` branches map
a raise to an absent value).  Written over the character list so that the
kernel can evaluate it on concrete inputs. -/
def intOfDigits (s : String) : Option Nat :=
  if s.toList ≠ [] ∧ s.toList.all Char.isDigit then
    some (s.toList.foldl (fun n c => n * 10 + (c.toNat - '0'.toNat)) 0)
  else none

/-! ## Person type and birthday inference (app_isaac.py lines 470-543) -/

/-- `tipo_persona_from_rfc`: strip non-alphanumerics; 12 characters means a
legal entity ("moral"), 13 a natural person ("fisica"), anything else no
classification. -/
def tipo_persona_from_rfc (rfc : Option String) : Option String :=
  let r := alnumOnly (rfc.getD "")
  if r.length = 12 then some "moral"
  else if r.length = 13 then some "fisica"
  else none

/-- `infer_century`: `cur` is `int(date.today().strftime("%y"))`, the
current two-digit year (the wall clock abstracted as a parameter). -/
def infer_century (cur : Nat) (yy : String) : Option Nat :=
  match intOfDigits yy with
  | none => none
  | some y => some (if y ≤ cur then 2000 + y else 1900 + y)

/-- `birthday_from_rfc`: on a 13-character (after filtering) RFC, read
`YYMMDD` from positions 4-9 and format `YYYY-MM-DD`. -/
def birthday_from_rfc (cur : Nat) (rfc : Option String) : Option String :=
  let r := (alnumOnly (rfc.getD "")).toList
  if r.length ≠ 13 then none
  else
    let yy := infer_century cur (String.mk ((r.drop 4).take 2))
    match intOfDigits (String.mk ((r.drop 6).take 2)),
          intOfDigits (String.mk ((r.drop 8).take 2)) with
    | some mm, some dd =>
      match yy with
      | none => none
      | some y => some (padNum 4 y ++ "-" ++ padNum 2 mm ++ "-" ++ padNum 2 dd)
    | _, _ => none

/-- `birthday_from_curp`: same digits read from a CURP of length ≥ 10. -/
def birthday_from_curp (cur : Nat) (curp : Option String) : Option String :=
  let c := (alnumOnly (curp.getD "")).toList
  if c.length < 10 then none
  else
    let yy := infer_century cur (String.mk ((c.drop 4).take 2))
    match intOfDigits (String.mk ((c.drop 6).take 2)),
          intOfDigits (String.mk ((c.drop 8).take 2)) with
    | some mm, some dd =>
      match yy with
      | none => none
      | some y => some (padNum 4 y ++ "-" ++ padNum 2 mm ++ "-" ++ padNum 2 dd)
    | _, _ => none

/-! ## The extracted record (app_isaac.py `TARGET_COLS` / `empty_row_vec`) -/

/-- One extracted record: the 19+1 named fields of `TARGET_COLS`, each an
optional string (`empty_row_vec` maps every column to `None`). -/
structure Row where
  Nombres : Option String := none
  last_name : Option String := none
  second_last_name : Option String := none
  birthday_at : Option String := none
  RFC : Option String := none
  curp : Option String := none
  nationality : Option String := none
  industry : Option String := none
  industry_SAT : Option String := none
  codigo_postal : Option String := none
  province : Option String := none
  municipality : Option String := none
  neighborhood : Option String := none
  nombre_vialidad : Option String := none
  numero_exterior : Option String := none
  numero_interior : Option String := none
  clave_pais : Option String := none
  contact_phone : Option String := none
  contact_email : Option String := none
  created_at : Option String := none
deriving DecidableEq

/-- `empty_row_vec()`: every target column absent. -/
def empty_row_vec : Row := {}

/-- The record's values in the fixed `TARGET_COLS` order. -/
def rowValues (r : Row) : List (Option String) :=
  [r.Nombres, r.last_name, r.second_last_name, r.birthday_at, r.RFC, r.curp,
   r.nationality, r.industry, r.industry_SAT, r.codigo_postal, r.province,
   r.municipality, r.neighborhood, r.nombre_vialidad, r.numero_exterior,
   r.numero_interior, r.clave_pais, r.contact_phone, r.contact_email,
   r.created_at]

/-- `all_empty` on a record: every value renders to the empty string
(`None` renders empty; a present string renders as itself). -/
def all_empty (r : Row) : Bool :=
  (rowValues r).all fun v => v.getD "" = ""

/-- `row_is_empty`: a present non-empty RFC or name makes the row
non-empty; otherwise the row is empty iff all rendered values are empty. -/
def row_is_empty (r : Row) : Bool :=
  if safe_nzchar r.RFC || safe_nzchar r.Nombres then false else all_empty r

/-! ## Table serialization (app_isaac.py `to_df` / `as_char_df`) -/

/-- `astype(str)` on one cell of the frame built by `to_df`: a present
string is unchanged, an absent value renders as the literal `"None"`. -/
def astype_str (v : Option String) : String :=
  match v with
  | none => "None"
  | some s => s

/-- The per-cell replacement of `as_char_df`: cells whose rendered text is
exactly `"None"`, `"nan"` or `"NaN"` become the empty string. -/
def as_char_cell (s : String) : String :=
  if s = "None" || s = "nan" || s = "NaN" then "" else s

/-- One record's row in the finalized table: `to_df` followed by
`as_char_df`, cell by cell in `TARGET_COLS` order. -/
def to_df_as_char (r : Row) : List String :=
  (rowValues r).map fun v => as_char_cell (astype_str v)

/-! ## Document-type classifier (app_isaac.py `detect_doc_type`) -/

/-- Substring test on strings (the truth value of an un-anchored literal
regex search, letter classes expanded). -/
def hasSub (needle hay : List Char) : Bool :=
  needle.isPrefixOf hay ||
    match hay with
    | [] => false
    | _ :: t => hasSub needle t

def containsSub (needle hay : String) : Bool :=
  hasSub needle.toList hay.toList

/-- The CSF keyword set of `detect_doc_type` (the regex alternation with
its `[OÓ]`/`[ÉE]` classes expanded into literal alternatives), tested
against the upper-cased text. -/
def csf_keyword (text : String) : Bool :=
  let t := pyUpper text
  containsSub "CONSTANCIA DE SITUACION FISCAL" t ||
  containsSub "CONSTANCIA DE SITUACIÓN FISCAL" t ||
  containsSub "CEDULA DE IDENTIFICACION FISCAL" t ||
  containsSub "CEDULA DE IDENTIFICACIÓN FISCAL" t ||
  containsSub "CÉDULA DE IDENTIFICACION FISCAL" t ||
  containsSub "CÉDULA DE IDENTIFICACIÓN FISCAL" t ||
  containsSub "SERVICIO DE ADMINISTRACION TRIBUTARIA" t ||
  containsSub "SERVICIO DE ADMINISTRACIÓN TRIBUTARIA" t

/-- The CFDI keyword set of `detect_doc_type`. -/
def cfdi_keyword (text : String) : Bool :=
  let t := pyUpper text
  containsSub "COMPROBANTE FISCAL DIGITAL" t ||
  containsSub "CFDI" t ||
  containsSub "FACTURA" t ||
  containsSub "USO CFDI" t ||
  containsSub "RECEPTOR" t ||
  containsSub "EMISOR" t

/-- `detect_doc_type`: CSF keywords win, then CFDI keywords, default CSF. -/
def detect_doc_type (text : String) : String :=
  if csf_keyword text then "csf"
  else if cfdi_keyword text then "cfdi"
  else "csf"

/-! ## The abstract regex engine

`str_match_first(text, pattern, idx)` wraps `re.search(...).group(idx)`
(flags `I|M|S`, `None` on no match or a missing group); the parsers also
use `re.sub`, boolean `re.search` and three-group `re.findall` directly.
The Python `re` engine is outside the repository, so these four entry
points are abstracted as an engine parameter; every pattern string of the
source is kept verbatim at its call site (braces written `\x7b`/`\x7d`). -/

structure ReEngine where
  m : String → String → Nat → Option String
  sub : String → String → String → String
  srch : String → String → Bool
  findall3 : String → String → List (String × String × String)

/-! ## Small parser helpers (app_isaac.py lines 506-608) -/

/-- Month-name table of `normalize_date_es` (keys after accent removal). -/
def monthNum (mes : String) : Option Nat :=
  if mes = "ENERO" then some 1 else if mes = "FEBRERO" then some 2
  else if mes = "MARZO" then some 3 else if mes = "ABRIL" then some 4
  else if mes = "MAYO" then some 5 else if mes = "JUNIO" then some 6
  else if mes = "JULIO" then some 7 else if mes = "AGOSTO" then some 8
  else if mes = "SEPTIEMBRE" then some 9 else if mes = "OCTUBRE" then some 10
  else if mes = "NOVIEMBRE" then some 11 else if mes = "DICIEMBRE" then some 12
  else none

/-- Characters of the month class `[A-ZÁÉÍÓÚÑ]`. -/
def isMesChar (c : Char) : Bool :=
  ('A' ≤ c && c ≤ 'Z') || c = 'Á' || c = 'É' || c = 'Í' || c = 'Ó' ||
    c = 'Ú' || c = 'Ñ'

/-- Try to match `([0-9]{1,2})\s+DE\s+([A-ZÁÉÍÓÚÑ]+)\s+DE\s+([0-9]{4})`
starting exactly at the head of `cs`.  The character classes at each
quantifier boundary are disjoint, so the greedy Python match needs no
backtracking: a match exists iff the maximal digit run has length 1 or 2
and each following component is present. -/
def dateEsAt (cs : List Char) : Option (Nat × String × String) :=
  let ds := cs.takeWhile Char.isDigit
  if ds.length = 0 || ds.length > 2 then none
  else
    let r1 := cs.drop ds.length
    if (r1.takeWhile Char.isWhitespace).length = 0 then none
    else
      match r1.dropWhile Char.isWhitespace with
      | 'D' :: 'E' :: r3 =>
        if (r3.takeWhile Char.isWhitespace).length = 0 then none
        else
          let r4 := r3.dropWhile Char.isWhitespace
          let ms := r4.takeWhile isMesChar
          if ms.length = 0 then none
          else
            let r5 := r4.drop ms.length
            if (r5.takeWhile Char.isWhitespace).length = 0 then none
            else
              match r5.dropWhile Char.isWhitespace with
              | 'D' :: 'E' :: r7 =>
                if (r7.takeWhile Char.isWhitespace).length = 0 then none
                else
                  let r8 := r7.dropWhile Char.isWhitespace
                  if (r8.takeWhile Char.isDigit).length < 4 then none
                  else
                    some ((String.mk ds).toNat?.getD 0, String.mk ms,
                      String.mk (r8.take 4))
              | _ => none
      | _ => none

/-- `re.search` of the date-in-Spanish-words pattern: first matching
start position, scanning left to right. -/
def searchDateEs : List Char → Option (Nat × String × String)
  | [] => none
  | c :: rest =>
    match dateEsAt (c :: rest) with
    | some r => some r
    | none => searchDateEs rest

/-- `normalize_date_es`: collapse whitespace, upper-case, find
`D DE MES DE YYYY`, translate accents off the month name and format
`YYYY-MM-DD`; on any failure return the input unchanged (or `None` for an
absent/empty input). -/
def normalize_date_es (x : Option String) : Option String :=
  if ¬ safe_nzchar x then none
  else
    let x2 := pyUpper (String.mk (collapseWsAll (x.getD "").toList))
    match searchDateEs x2.toList with
    | none => x
    | some (d, mes, y) =>
      let mes2 := String.mk (mes.toList.map fun c =>
        if c = 'Á' then 'A' else if c = 'É' then 'E' else if c = 'Í' then 'I'
        else if c = 'Ó' then 'O' else if c = 'Ú' then 'U' else c)
      match monthNum mes2 with
      | none => x
      | some mn => some (y ++ "-" ++ padNum 2 mn ++ "-" ++ padNum 2 d)

/-- `extract_email`: labeled address first, any address as fallback. -/
def extract_email (E : ReEngine) (text : String) : Option String :=
  let m0 := E.m text "(?i)(Correo Electr[oó]nico|Email|E[- ]?mail)[:\\s]*([A-Z0-9._%+-]+@[A-Z0-9.-]+\\.[A-Z]\x7b2,\x7d)" 2
  if safe_nzchar m0 then m0
  else E.m text "(?i)([A-Z0-9._%+-]+@[A-Z0-9.-]+\\.[A-Z]\x7b2,\x7d)" 1

/-- `extract_phone`: lada + número joined under `+52` with whitespace
removed, else a free-form phone match. -/
def extract_phone (E : ReEngine) (text : String) : Option String :=
  let lada := E.m text "(?i)Lada[:\\s]*([0-9]\x7b2,4\x7d)" 1
  let num1 := E.m text "(?i)N[uú]mero[:\\s]*([0-9\\- ]\x7b5,\x7d)" 1
  if safe_nzchar lada && safe_nzchar num1 then
    some (removeWs ("+52" ++ lada.getD "" ++ num1.getD ""))
  else
    E.m text "(?i)(\\+?52)?[\\s-]*\\(?[0-9]\x7b2,3\x7d\\)?[\\s-]*[0-9]\x7b3,4\x7d[\\s-]*[0-9]\x7b4\x7d" 0

/-- The joined stop-label pattern of `cut_after_label_noise`. -/
def csf_stop_pat : String :=
  "(?is)\\s*(?:N[úu]mero\\s*Exterior|N[úu]mero\\s*Interior|Nombre\\s+de\\s+la\\s+Colonia|Nombre\\s+de\\s+la\\s+Localidad|Nombre\\s+del\\s+Municipio|Demarcaci[oó]n\\s+Territorial|Nombre\\s+de\\s+la\\s+Entidad\\s+Federativa|Entre\\s+Calle|Y\\s+Calle|Correo\\s+Electr[oó]nico|Tel\\.?\\s*Fijo|Actividades?\\s+Econ[oó]micas?)\\b.*$"

/-- `cut_after_label_noise`: drop everything from the first stop label. -/
def cut_after_label_noise (E : ReEngine) (x : Option String) : Option String :=
  if ¬ safe_nzchar x then x
  else some (s_trim (E.sub csf_stop_pat "" (x.getD "")))

/-- `truncate_before_NOMBRE`. -/
def truncate_before_NOMBRE (E : ReEngine) (x : Option String) : Option String :=
  if ¬ safe_nzchar x then x
  else some (s_trim (E.sub "(?is)\\s*NOMBRE\\b.*$" "" (x.getD "")))

/-- `np.argmax` on an integer list: index of the first maximum. -/
def argmaxIdx (l : List Int) : Nat :=
  match l with
  | [] => 0
  | x :: xs => argmaxGo xs x 0 1
where
  argmaxGo : List Int → Int → Nat → Nat → Nat
    | [], _, best, _ => best
    | y :: ys, bv, best, i =>
      if y > bv then argmaxGo ys y i (i + 1) else argmaxGo ys bv best (i + 1)

/-- `clean_activity` (local to `extract_actividades_top`). -/
def clean_activity (E : ReEngine) (x : String) : String :=
  let x := s_trim x
  let x := E.sub "\\b\\d\x7b1,3\x7d\\s*%\\b.*$" "" x
  let x := E.sub "\\b\\d\x7b1,2\x7d[/-]\\d\x7b1,2\x7d[/-]\\d\x7b2,4\x7d\\b.*$" "" x
  String.mk (collapseWs2 x.toList)

/-- The block pattern of `extract_actividades_top`, stop markers joined. -/
def actividades_pat : String :=
  "(?is)Actividades?\\s*Econ[oó]micas?\\s*:?\\s*[\\r\\n\\s]*(.+?)(?:Reg[ií]men(?:es)?|Obligaciones|Datos\\s+del\\s+domicilio|Datos\\s+de\\s+Ubicaci[oó]n|Nombre\\s+de\\s+la\\s+Entidad|Contacto|VALIDA\\s+TU\\s+INFORMACI[ÓO]N|Av\\.|Atenci[oó]n\\s+telef[oó]nica|Correo\\s+Electr[oó]nico|Tel\\.?\\s*Fijo|$)"

/-- `extract_actividades_top`: locate the activities block, list numbered
activities with their percentages, return the activity with the highest
percentage (or the first non-empty, or a line-start fallback). -/
def extract_actividades_top (E : ReEngine) (text : String) : Option String :=
  let bloque := (E.m text actividades_pat 1).getD ""
  if bloque = "" then none
  else
    let B := String.mk (collapseWs2 bloque.toList)
    let B := E.sub "\\s*(?:Orden\\s+Actividad\\s+Econ[oó]mica\\s+Porcentaje.*?)(?=\\d)" " " B
    let m_all := E.findall3 "(?i)(?:^|\\s)(\\d+)\\s+([A-ZÁÉÍÓÚÑ0-9 .,/\x27\\-\\(\\)]+?)\\s+(\\d\x7b1,3\x7d)\\s*%?\\b(?:\\s+\\d\x7b1,2\x7d[/-]\\d\x7b1,2\x7d[/-]\\d\x7b2,4\x7d)?" B
    let viaList : Option String :=
      if m_all.length > 0 then
        let acts := m_all.map fun tup => clean_activity E tup.2.1
        let pct : List Int := m_all.map fun tup =>
          match intOfDigits tup.2.2 with
          | some n => (n : Int)
          | none => -1
        if pct.any (· ≥ 0) then some (acts.getD (argmaxIdx pct) "")
        else
          match acts.filter (fun a => a ≠ "") with
          | c :: _ => some c
          | [] => none
      else none
    match viaList with
    | some r => some r
    | none =>
      let cand := E.m B "(?im)^[\\s\\-•]*([A-ZÁÉÍÓÚÑ][A-ZÁÉÍÓÚÑ0-9 .,/\x27\\-\\(\\)]\x7b5,\x7d)" 1
      if safe_nzchar cand then some (clean_activity E (cand.getD ""))
      else none

/-! ## CSF parser (app_isaac.py `parse_csf_fields`) -/

/-- The `label_fixes` table: concatenated labels normalized to spaced
labels before extraction. -/
def label_fixes : List (String × String) :=
  [("NombredelaEntidadFederativa", "Nombre de la Entidad Federativa"),
   ("NombredelMunicipiooDemarcaciónTerritorial", "Nombre del Municipio o Demarcación Territorial"),
   ("NombredelMunicipiooDemarcacionTerritorial", "Nombre del Municipio o Demarcación Territorial"),
   ("NombredelaColonia", "Nombre de la Colonia"),
   ("NombredelaLocalidad", "Nombre de la Localidad"),
   ("TipodeVialidad", "Tipo de Vialidad"),
   ("NombredeVialidad", "Nombre de Vialidad"),
   ("NúmeroExterior", "Número Exterior"),
   ("NumeroExterior", "Número Exterior"),
   ("NúmeroInterior", "Número Interior"),
   ("NumeroInterior", "Número Interior"),
   ("Fechainiciodeoperaciones", "Fecha inicio de operaciones"),
   ("Fechadeúltimocambiodeestado", "Fecha de último cambio de estado"),
   ("PrimerApellido", "Primer Apellido"),
   ("SegundoApellido", "Segundo Apellido"),
   ("Denominación/RazónSocial", "Denominación/Razón Social"),
   ("Denominacion/RazonSocial", "Denominación/Razón Social")]

def csf_label_fix (E : ReEngine) (text : String) : String :=
  label_fixes.foldl (fun t pr => E.sub pr.1 pr.2 t) text

/-- The extraction block's result: the record plus the three name
candidates kept as local variables for the person-type post-processing. -/
structure CsfParsed where
  row : Row
  nombres_val : Option String
  full_rs_val : Option String
  full_rs_exact : Option String
deriving DecidableEq

set_option maxHeartbeats 1600000 in
/-- The identifier/name/address part of the `try:` extraction block of
`parse_csf_fields` (source lines 646-784).  Every `str_match_first` /
`re.sub` / `re.search` call goes through the abstract engine with the
source's pattern. -/
def csf_extract_addr (E : ReEngine) (text : String) : CsfParsed :=
  let out := empty_row_vec
  let rfc := pyOr
    (E.m text "(?i)R\\.?F\\.?C\\.?[:\\s]*([A-ZÑ&]\x7b3,4\x7d\\d\x7b6\x7d[A-Z0-9]\x7b2,3\x7d)" 1)
    (E.m text "(?i)RFC[:\\s]*([A-ZÑ&]\x7b3,4\x7d\\d\x7b6\x7d[A-Z0-9]\x7b2,3\x7d)" 1)
  let out := if safe_nzchar rfc then { out with RFC := some (pyUpper (rfc.getD "")) } else out
  let curp := E.m text "(?i)CURP[:\\s]*([A-Z]\x7b4\x7d\\d\x7b6\x7d[HM][A-Z]\x7b5\x7d[A-Z0-9]\x7b2\x7d)" 1
  let out := if safe_nzchar curp then { out with curp := some (pyUpper (curp.getD "")) } else out
  let nombres_val := E.m text "(?is)Nombre\\s*\\(s\\)[:\\s]*([A-ZÁÉÍÓÚÑ0-9 .,\x27-]\x7b2,\x7d?)(?=\\s*(?:Primer\\s*Apellido|Segundo\\s*Apellido|R\\.?F\\.?C\\.?|RFC|CURP|$))" 1
  let ap1 := E.m text "(?i)Primer\\s*Apellido[:\\s]*([A-ZÁÉÍÓÚÑ .,\x27-]\x7b2,\x7d)" 1
  let ap2 := E.m text "(?i)Segundo\\s*Apellido[:\\s]*([A-ZÁÉÍÓÚÑ .,\x27-]\x7b2,\x7d)" 1
  let full_rs_val := E.m text "(?is)(?:Denominaci[oó]n|Raz[oó]n\\s*Social|Nombre,\\s*denominaci[oó]n\\s*o\\s*raz[oó]n\\s*social)[:\\s]*([A-ZÁÉÍÓÚÑ0-9 .,\x27&/-]\x7b5,\x7d)" 1
  let full_rs_exact := E.m text "(?is)Denominaci[oó]n\\s*/?\\s*Raz[oó]n\\s*Social\\s*:\\s*([^\\r\\n]+)" 1
  let out :=
    if safe_nzchar nombres_val then
      let out := { out with Nombres := some (s_trim (nombres_val.getD "")) }
      let out :=
        if safe_nzchar ap1 then
          let ap1c := s_trim (ap1.getD "")
          let ap1c := s_trim (E.sub "(?is)\\s*Segundo\\s*Apellido.*$" "" ap1c)
          let ap1c := s_trim (E.sub "(?is)\\s*Fecha\\s+inicio\\s+de\\s+operaciones.*$" "" ap1c)
          { out with last_name := some ap1c }
        else out
      if safe_nzchar ap2 then
        let ap2c := s_trim (ap2.getD "")
        let ap2c := s_trim (E.sub "(?is)\\s*Fecha\\s+inicio\\s+de\\s+operaciones.*$" "" ap2c)
        { out with second_last_name := some ap2c }
      else out
    else if safe_nzchar full_rs_val then
      { out with Nombres := some (s_trim (full_rs_val.getD "")) }
    else out
  let f_ini := E.m text "(?i)(?:Fecha\\s*inicio\\s*de\\s*operaciones|Fechainiciodeoperaciones)[:\\s]*([0-9]\x7b1,2\x7d\\s*DE\\s*[A-ZÁÉÍÓÚÑ]+\\s*DE\\s*\\d\x7b4\x7d)" 1
  let out := if safe_nzchar f_ini then { out with created_at := normalize_date_es f_ini } else out
  let f_emision := E.m text "(?is)Lugar\\s+y\\s+Fecha\\s+de\\s+Emisi[oó]n.*?A\\s+([0-9]\x7b1,2\x7d\\s*DE\\s*[A-ZÁÉÍÓÚÑ]+\\s*DE\\s*\\d\x7b4\x7d)" 1
  let out := if safe_nzchar f_emision then { out with created_at := normalize_date_es f_emision } else out
  let cp := E.m text "(?i)(C[oó]digo\\s*Postal|C\\.?P\\.?)[:\\s]*([0-9]\x7b5\x7d)" 2
  let out := if safe_nzchar cp then { out with codigo_postal := cp } else out
  let vial0 := E.m text "(?is)(?:Nombre\\s+de\\s+Vialidad)[:\\s]*([^\\n\\r]\x7b3,\x7d?)(?=\\s*(?:N[úu]mero\\s*Exterior|N[úu]mero\\s*Interior|Nombre\\s+de\\s+la\\s+Colonia|Nombre\\s+de\\s+la\\s+Localidad|Nombre\\s+del\\s+Municipio|Demarcaci[oó]n\\s+Territorial|Nombre\\s+de\\s+la\\s+Entidad\\s+Federativa|Entre\\s+Calle|Y\\s+Calle|Correo\\s+Electr[oó]nico|Tel\\.?\\s*Fijo|Actividades?\\s+Econ[oó]micas?|$))" 1
  let vial :=
    if ¬ safe_nzchar vial0 then
      let v := E.m text "(?is)(?:Vialidad|Calle)[:\\s]*([^\\n\\r]\x7b3,\x7d?)(?=\\s*(?:N[úu]mero\\s*Exterior|N[úu]mero\\s*Interior|Nombre\\s+de\\s+la\\s+Colonia|Nombre\\s+de\\s+la\\s+Localidad|Nombre\\s+del\\s+Municipio|Demarcaci[oó]n\\s+Territorial|Nombre\\s+de\\s+la\\s+Entidad\\s+Federativa|Entre\\s+Calle|Y\\s+Calle|Correo\\s+Electr[oó]nico|Tel\\.?\\s*Fijo|Actividades?\\s+Econ[oó]micas?|$))" 1
      if safe_nzchar v && E.srch "(?i)Nombre\\s+de\\s+Vialidad\\s*:" (v.getD "") then
        some (E.sub "(?is)^.*?Nombre\\s+de\\s+Vialidad\\s*:\\s*" "" (v.getD ""))
      else v
    else vial0
  let out := if safe_nzchar vial then { out with nombre_vialidad := cut_after_label_noise E vial } else out
  let numext := E.m text "(?is)N[úu]mero\\s*Exterior[:\\s]*([^\\n\\r]\x7b1,40\x7d?)(?=\\s*(?:N[úu]mero\\s*Interior|Nombre\\s+de\\s+la\\s+Colonia|Colonia|Nombre\\s+de\\s+la\\s+Localidad|Nombre\\s+del\\s+Municipio|Demarcaci[oó]n\\s+Territorial|Nombre\\s+de\\s+la\\s+Entidad\\s+Federativa|Entre\\s+Calle|Y\\s+Calle|Correo\\s+Electr[oó]nico|Tel\\.?\\s*Fijo|Actividades?\\s+Econ[oó]micas?|$))" 1
  let out := if safe_nzchar numext then { out with numero_exterior := some (s_trim (numext.getD "")) } else out
  let raw_int := E.m text "(?is)N[úu]mero\\s*Interior[:\\s]*([^\\n\\r]\x7b0,40\x7d?)(?=\\s*(?:Nombre\\s+de\\s+la\\s+Colonia|Colonia|Nombre\\s+de\\s+la\\s+Localidad|Nombre\\s+del\\s+Municipio|Demarcaci[oó]n\\s+Territorial|Nombre\\s+de\\s+la\\s+Entidad\\s+Federativa|Entre\\s+Calle|Y\\s+Calle|Correo\\s+Electr[oó]nico|Tel\\.?\\s*Fijo|Actividades?\\s+Econ[oó]micas?|$))" 1
  let out :=
    if safe_nzchar raw_int then
      let ni := s_trim (raw_int.getD "")
      let ni : Option String :=
        if ni = "" || E.srch "(?i)^Nombre(\\b|\\s)" ni then none else some ni
      { out with numero_interior := ni }
    else out
  let ent := E.m text "(?is)(Nombre\\s+del\\s+Municipio\\s+o\\s+Demarcaci[oó]n\\s+Territorial|Municipio|Demarcaci[oó]n\\s*Territorial)[:\\s]*([A-ZÁÉÍÓÚÑ .\x27-]\x7b3,\x7d)" 2
  let mun := ent
  let col := E.m text "(?i)(Nombre\\s+de\\s+la\\s+Colonia|Colonia)[:\\s]*([A-ZÁÉÍÓÚÑ 0-9.\x27-]\x7b3,\x7d)" 2
  let out := if safe_nzchar mun then { out with municipality := truncate_before_NOMBRE E (some (s_trim (mun.getD ""))) } else out
  let out := if safe_nzchar col then { out with neighborhood := truncate_before_NOMBRE E (some (s_trim (col.getD ""))) } else out
  let out :=
    if ¬ safe_nzchar out.nombre_vialidad then
      let vial2 := E.m text "(?i)(?:Nombre\\s*de\\s*Vialidad|Vialidad|Calle)[:\\s]*([^\\n\\r,]\x7b3,\x7d)" 1
      if safe_nzchar vial2 then { out with nombre_vialidad := cut_after_label_noise E vial2 } else out
    else out
  ⟨out, nombres_val, full_rs_val, full_rs_exact⟩

/-- The tail of the extraction block (source lines 786-798): nationality
and country code set unconditionally, contact data, declared activity, and
the birthday derived from RFC or CURP. -/
def csf_extract (E : ReEngine) (cur : Nat) (text : String) : CsfParsed :=
  let p := csf_extract_addr E text
  let out := p.row
  let out := { out with nationality := some "mexicana", clave_pais := some "MX",
                        contact_email := coalesce (extract_email E text) none,
                        contact_phone := coalesce (extract_phone E text) none }
  let industry := extract_actividades_top E text
  let out := { out with industry := industry, industry_SAT := industry }
  let dob := birthday_from_rfc cur out.RFC
  let dob := if ¬ safe_nzchar dob then birthday_from_curp cur out.curp else dob
  let out := if safe_nzchar dob then { out with birthday_at := dob } else out
  ⟨out, p.nombres_val, p.full_rs_val, p.full_rs_exact⟩

/-- Person-type decision of `parse_csf_fields` (source lines 808-816):
RFC length first, then the text-derived name fields, else "desconocido". -/
def csf_tipo_of (row : Row) : String :=
  match tipo_persona_from_rfc row.RFC with
  | some t => t
  | none =>
    if safe_nzchar row.last_name || safe_nzchar row.second_last_name then "fisica"
    else if safe_nzchar row.Nombres then "moral"
    else "desconocido"

/-- Person-type post-processing of `parse_csf_fields`, legal-entity part
(source lines 818-824): exact Denominación/Razón Social line preferred,
Régimen Capital tail dropped, surnames cleared. -/
def csf_post_moral (E : ReEngine) (tipo : String) (p : CsfParsed) : Row :=
  let out := p.row
  if tipo = "moral" then
    let name_raw := if safe_nzchar p.full_rs_exact then p.full_rs_exact else p.full_rs_val
    let out :=
      if safe_nzchar name_raw then
        { out with Nombres := some (s_trim (E.sub "(?is)\\s*R[ée]gimen\\s+Capital.*$" "" (name_raw.getD ""))) }
      else out
    { out with last_name := none, second_last_name := none }
  else out

/-- Person-type post-processing, natural-person part (source lines
826-833): trailing Primer/Segundo Apellido and Fecha-inicio noise cut off
the name fields. -/
def csf_post_fisica (E : ReEngine) (tipo : String) (out : Row) : Row :=
  if tipo = "fisica" then
    let out :=
      if safe_nzchar out.Nombres then
        { out with Nombres := some (s_trim (E.sub "(?is)\\s*Primer\\s*Apellido.*$" "" (out.Nombres.getD ""))) }
      else out
    let out :=
      if safe_nzchar out.last_name then
        let ln := s_trim (E.sub "(?is)\\s*Segundo\\s*Apellido.*$" "" (out.last_name.getD ""))
        let ln := s_trim (E.sub "(?is)\\s*Fecha\\s+inicio\\s+de\\s+operaciones.*$" "" ln)
        { out with last_name := some ln }
      else out
    if safe_nzchar out.second_last_name then
      { out with second_last_name := some (s_trim (E.sub "(?is)\\s*Fecha\\s+inicio\\s+de\\s+operaciones.*$" "" (out.second_last_name.getD ""))) }
    else out
  else out

/-- Person-type post-processing of `parse_csf_fields` (source lines
818-833), both parts in source order. -/
def csf_post (E : ReEngine) (tipo : String) (p : CsfParsed) : Row :=
  csf_post_fisica E tipo (csf_post_moral E tipo p)

structure TipoRow where
  tipo : String
  row : Row
deriving DecidableEq

/-- `parse_csf_fields`: label fixing, extraction, person-type decision,
person-type post-processing. -/
def parse_csf_fields (E : ReEngine) (cur : Nat) (text : String) : TipoRow :=
  let text := csf_label_fix E text
  let p := csf_extract E cur text
  let tipo := csf_tipo_of p.row
  ⟨tipo, csf_post E tipo p⟩

/-! ## CFDI parser (app_isaac.py `parse_cfdi_fields`) -/

/-- Person-type decision of `parse_cfdi_fields` (source lines 914-917):
RFC length when it classifies, otherwise the constant "fisica". -/
def cfdi_tipo_of (rfc : Option String) : String :=
  match tipo_persona_from_rfc rfc with
  | some t => t
  | none => "fisica"

/-- `parse_cfdi_fields`: the extraction block (completed without an
internal exception) followed by the person-type decision. -/
def parse_cfdi_fields (E : ReEngine) (cur : Nat) (text : String) : TipoRow :=
  let out := empty_row_vec
  let rfc := pyOr (pyOr
    (E.m text "(?i)RFC\\s*(del)?\\s*Receptor[:\\s]*([A-ZÑ&]\x7b3,4\x7d\\d\x7b6\x7d[A-Z0-9]\x7b2,3\x7d)" 2)
    (E.m text "(?i)Receptor.*?RFC[:\\s]*([A-ZÑ&]\x7b3,4\x7d\\d\x7b6\x7d[A-Z0-9]\x7b2,3\x7d)" 1))
    (E.m text "(?i)RFC\\s*[:\\s]*([A-ZÑ&]\x7b3,4\x7d\\d\x7b6\x7d[A-Z0-9]\x7b2,3\x7d)" 1)
  let out := if safe_nzchar rfc then { out with RFC := some (pyUpper (rfc.getD "")) } else out
  let nom := pyOr
    (E.m text "(?i)Nombre\\s*(del)?\\s*Receptor[:\\s]*([A-ZÁÉÍÓÚÑ0-9 .,\x27-]\x7b3,\x7d)" 2)
    (E.m text "(?i)Receptor.*?Nombre[:\\s]*([A-ZÁÉÍÓÚÑ0-9 .,\x27-]\x7b3,\x7d)" 1)
  let out := if safe_nzchar nom then { out with Nombres := some (s_trim (nom.getD "")) } else out
  let cp := E.m text "(?i)(C[oó]digo\\s*Postal|C\\.?P\\.?|Lugar\\s+de\\s+expedici[oó]n)[:\\s]*([0-9]\x7b5\x7d)" 2
  let out := if safe_nzchar cp then { out with codigo_postal := cp } else out
  let ent := E.m text "(?i)(Estado|Entidad|Provincia)[:\\s]*([A-ZÁÉÍÓÚÑ .\x27-]\x7b3,\x7d)" 2
  let mun := E.m text "(?i)(Municipio|Delegaci[oó]n)[:\\s]*([A-ZÁÉÍÓÚÑ .\x27-]\x7b3,\x7d)" 2
  let col := E.m text "(?i)(Colonia)[:\\s]*([A-ZÁÉÍÓÚÑ 0-9.\x27-]\x7b3,\x7d)" 2
  let out := if safe_nzchar ent then { out with province := some (s_trim (ent.getD "")) } else out
  let out := if safe_nzchar mun then { out with municipality := some (s_trim (mun.getD "")) } else out
  let out := if safe_nzchar col then { out with neighborhood := some (s_trim (col.getD "")) } else out
  let vial := E.m text "(?i)(Nombre\\s*de\\s*Vialidad|Calle|Vialidad)[:\\s]*([^\\n\\r,]\x7b3,\x7d)" 2
  let out := if safe_nzchar vial then { out with nombre_vialidad := cut_after_label_noise E vial } else out
  let numext := E.m text "(?is)((?:No\\.?\\s*Ext\\.?|N[úu]mero\\s*Exterior))[:\\s]*([^\\n\\r]\x7b1,40\x7d?)(?=\\s*(?:(?:No\\.?\\s*Int\\.?|N[úu]mero\\s*Interior)|Colonia|C[oó]digo\\s*Postal|C\\.?P\\.?|Lugar\\s+de\\s+expedici[oó]n|Municipio|Delegaci[oó]n|Estado|Entidad|Provincia|$))" 2
  let numint := E.m text "(?is)((?:No\\.?\\s*Int\\.?|N[úu]mero\\s*Interior))[:\\s]*([^\\n\\r]\x7b0,40\x7d?)(?=\\s*(?:Colonia|C[oó]digo\\s*Postal|C\\.?P\\.?|Lugar\\s+de\\s+expedici[oó]n|Municipio|Delegaci[oó]n|Estado|Entidad|Provincia|$))" 2
  let out := if safe_nzchar numext then { out with numero_exterior := some (s_trim (numext.getD "")) } else out
  let out := if safe_nzchar numint then { out with numero_interior := some (s_trim (numint.getD "")) } else out
  let out := { out with contact_email := coalesce (extract_email E text) none,
                        contact_phone := coalesce (extract_phone E text) none,
                        nationality := some "mexicana", clave_pais := some "MX" }
  let curp := E.m text "(?i)CURP[:\\s]*([A-Z]\x7b4\x7d\\d\x7b6\x7d[HM][A-Z]\x7b5\x7d[A-Z0-9]\x7b2\x7d)" 1
  let out := if safe_nzchar curp then { out with curp := some (pyUpper (curp.getD "")) } else out
  let dob := birthday_from_rfc cur out.RFC
  let dob := if ¬ safe_nzchar dob then birthday_from_curp cur out.curp else dob
  let out := if safe_nzchar dob then { out with birthday_at := dob } else out
  ⟨cfdi_tipo_of out.RFC, out⟩

/-! ## Anchor-window extractors (lector_contrato/app.py lines 112-195)

The anchor regex and the value regex (`MONEY_REGEX` / `PCT_REGEX`) are
compiled `re.Pattern`s; their engine is external, so each is abstracted by
its match semantics: `anchor_search` is `pattern.search` (first hit or
none) and the finditer parameter is `extract_all_with_pos` (all
non-overlapping hits, left to right, as `Hit(start, end, value)`). -/

/-- A transient anchor/value hit; `stop` is the source's field `end`
(a Lean keyword). -/
structure Hit where
  start : Nat
  stop : Nat
  value : String
deriving DecidableEq

/-- `_window_around_anchor`: the chunk of `window` characters each side of
the anchor span, and the chunk's offset in the original text.  Natural
subtraction is Python's `max(0, a_start - window)`. -/
def window_around_anchor (text : String) (aStart aEnd window : Nat) :
    String × Nat :=
  let start := aStart - window
  let stop := min text.length (aEnd + window)
  (String.mk ((text.toList.drop start).take (stop - start)), start)

/-- The tie-break of both extractors: `hits[0]`, `hits[-1]`, or the hit
whose center is nearest the anchor's center, first winner on ties.  The
Python keys are exact half-integers; both sides are doubled here so the
comparison happens in `ℤ` with the same order. -/
def pick_hit (h : Hit) (hs : List Hit) (prefer : String)
    (aStart aEnd chunkStart : Nat) : Hit :=
  if prefer = "first" then h
  else if prefer = "last" then hs.getLastD h
  else
    let key : Hit → Nat := fun x =>
      (((x.start : Int) + x.stop) -
        (((aStart : Int) + aEnd) - 2 * (chunkStart : Int))).natAbs
    (h :: hs).foldl (fun best x => if key x < key best then x else best) h

/-- `extract_money_near`: `None, None` without an anchor; `None, chunk`
without a money hit in the window; otherwise the picked value, stripped. -/
def extract_money_near (money_finditer : String → List Hit) (text : String)
    (anchor_search : String → Option Hit) (window : Nat) (prefer : String) :
    Option String × Option String :=
  match anchor_search text with
  | none => (none, none)
  | some a =>
    let wc := window_around_anchor text a.start a.stop window
    match money_finditer wc.1 with
    | [] => (none, some wc.1)
    | h :: hs =>
      (some (pyStrip (pick_hit h hs prefer a.start a.stop wc.2).value), some wc.1)

/-- `extract_pct_near`: same shape over the percent pattern. -/
def extract_pct_near (pct_finditer : String → List Hit) (text : String)
    (anchor_search : String → Option Hit) (window : Nat) (prefer : String) :
    Option String × Option String :=
  match anchor_search text with
  | none => (none, none)
  | some a =>
    let wc := window_around_anchor text a.start a.stop window
    match pct_finditer wc.1 with
    | [] => (none, some wc.1)
    | h :: hs =>
      (some (pyStrip (pick_hit h hs prefer a.start a.stop wc.2).value), some wc.1)

/-! ## Factoring supplier filters (factoraje_logic.py)

A normalized invoice header, as produced by `parse_header_min` (XML path)
or the API normalization; dates are abstracted as integers ordered like
dates, monetary floats as rationals.  The upstream network pipeline is
outside the embedding: the filters receive the accumulated header rows. -/

structure HeaderRow where
  uuid : Option String
  tipo : Option String
  metodo : Option String
  fecha : Option Int
  total : Option ℚ
  moneda : Option String
  tipo_cambio : Option ℚ
  emisor_rfc : Option String
  emisor_nombre : Option String
  receptor_rfc : Option String
  receptor_nombre : Option String
deriving DecidableEq

/-- The strict supplier filter of `headers_from_xml` (source lines
562-568): present non-empty uuid, `tipo == "I"`, receptor equal and emisor
different from the target RFC, all case-insensitively via upper casing
(`fillna("")` renders an absent field as the empty string). -/
def headers_xml_filter (rfc : String) (rows : List HeaderRow) :
    List HeaderRow :=
  let rfc_u := pyUpper rfc
  rows.filter fun h =>
    (match h.uuid with | none => false | some u => u ≠ "") &&
    (pyUpper (h.tipo.getD "") == "I") &&
    (pyUpper (h.receptor_rfc.getD "") == rfc_u) &&
    !(pyUpper (h.emisor_rfc.getD "") == rfc_u)

/-- `drop_duplicates(subset=["uuid"], keep="first")`. -/
def drop_duplicates_uuid : List HeaderRow → List (Option String) → List HeaderRow
  | [], _ => []
  | r :: rs, seen =>
    if r.uuid ∈ seen then drop_duplicates_uuid rs seen
    else r :: drop_duplicates_uuid rs (r.uuid :: seen)

/-- The deterministic tail of `headers_from_xml`: filter then first-wins
uuid de-duplication. -/
def headers_from_xml_rows (rfc : String) (rows : List HeaderRow) :
    List HeaderRow :=
  drop_duplicates_uuid (headers_xml_filter rfc rows) []

/-- The row filter of `metrics_by_interval` (source lines 598-607): a
present in-range date, present emisor and receptor RFCs, receptor equal
and emisor different from the target (upper-cased), `tipo == "I"`.  The
rows the aggregation then groups are a subset of these (the optional
unknown-FX exclusion only removes more). -/
def metrics_row_filter (rfc_target : String) (start_date end_date : Int)
    (rows : List HeaderRow) : List HeaderRow :=
  let rfc_u := pyUpper rfc_target
  rows.filter fun h =>
    (match h.fecha with
     | none => false
     | some f => decide (start_date ≤ f) && decide (f ≤ end_date)) &&
    h.emisor_rfc.isSome && h.receptor_rfc.isSome &&
    (pyUpper (h.receptor_rfc.getD "") == rfc_u) &&
    !(pyUpper (h.emisor_rfc.getD "") == rfc_u) &&
    (pyUpper (h.tipo.getD "") == "I")

/-! ## SAT activity matcher, lexical path (app_isaac.py lines 286-377)

With no API key configured, `USE_OPENAI` is `False`, so the embedding
stage (lines 316-327) and the GPT tie-break stage (lines 365-371) are
statically skipped; what remains is embedded below.  The jellyfish
Jaro-Winkler distance is the abstract parameter `jw` (always finite, so
the `np.all(~np.isfinite(d_all))` guard of line 337 cannot fire and the
`nan`-aware argmin is the plain first-minimum).  The session cache
memoizes exactly this computation per `(tipo, industry)` pair and is
dropped from the pure embedding. -/

/-- `normalize_txt`: upper-case, strip the Spanish accents, turn every
character outside `[A-Z0-9 ]` into a space, collapse whitespace, strip. -/
def normalize_txt (x : String) : String :=
  let s := (pyUpper x).toList.map fun c =>
    if c = 'Á' then 'A' else if c = 'É' then 'E' else if c = 'Í' then 'I'
    else if c = 'Ó' then 'O' else if c = 'Ú' then 'U' else if c = 'Ü' then 'U'
    else if c = 'Ñ' then 'N' else c
  let s := s.map fun c =>
    if ('A' ≤ c && c ≤ 'Z') || ('0' ≤ c && c ≤ '9') || c = ' ' then c else ' '
  pyStrip (String.mk (collapseWsAll s))

/-- First-occurrence de-duplication, preserving order. -/
def dedupFirst : List String → List String → List String
  | [], _ => []
  | t :: ts, seen =>
    if t ∈ seen then dedupFirst ts seen else t :: dedupFirst ts (t :: seen)

/-- `re.split(r"\s+", ...)`: the maximal non-whitespace chunks (the empty
border fragments Python also emits are dropped here; they are shorter
than 4 characters and die in the following filter either way).  Fuelled
by the length for structural recursion. -/
def splitWsAux : Nat → List Char → List String
  | 0, _ => []
  | _ + 1, [] => []
  | fuel + 1, c :: rest =>
    if c.isWhitespace then splitWsAux fuel rest
    else
      String.mk (c :: rest.takeWhile (fun x => !x.isWhitespace)) ::
        splitWsAux fuel (rest.dropWhile (fun x => !x.isWhitespace))

def splitWs (s : String) : List String :=
  splitWsAux s.toList.length s.toList

/-- `extract_tokens`: whitespace-split, keep tokens of length ≥ 4, unique
preserving order. -/
def extract_tokens (x : String) : List String :=
  if x = "" then []
  else dedupFirst ((splitWs x).filter fun t => 4 ≤ t.length) []

/-- `re.sub(r"\|\|.*$", "", valor)` on the single-line catalog values:
drop everything from the first `"||"`. -/
def strip_pipes_list : List Char → List Char
  | [] => []
  | c :: rest =>
    if c = '|' && rest.head? = some '|' then [] else c :: strip_pipes_list rest

def strip_pipes (s : String) : String := String.mk (strip_pipes_list s.toList)

/-- One SAT catalog row as built in `load_sat_catalogs`: the raw value,
its description base, the normalized description and its token set. -/
structure CatalogEntry where
  valor : String
  desc_base : String
  desc_norm : String
  tokens : List String
deriving DecidableEq

def load_entry (valor : String) : CatalogEntry :=
  let db := strip_pipes valor
  let dn := normalize_txt db
  ⟨valor, db, dn, extract_tokens dn⟩

def dummy_entry : CatalogEntry := ⟨"", "", "", []⟩

/-- The comparison behind `np.argsort(d_all)`: by distance, index as the
deterministic tie-break (`argsort` keeps some tie order; every statement
proved below is tie-order independent). -/
def jw_order (d_all : List ℚ) (i j : Nat) : Bool :=
  decide (d_all.getD i 0 < d_all.getD j 0 ∨
    (d_all.getD i 0 = d_all.getD j 0 ∧ i ≤ j))

/-- `ord_idx = np.argsort(d_all)[: min(40, ...)]`. -/
def jw_top40 (d_all : List ℚ) : List Nat :=
  ((List.range d_all.length).mergeSort (jw_order d_all)).take 40

/-- `len(set(q_tokens) & set(tok_vec)) > 0`. -/
def shares_token (q_tokens : List String) (e : CatalogEntry) : Bool :=
  (e.tokens.filter fun t => t ∈ q_tokens).length > 0

/-- Stages 1-2 of the lexical path (source lines 333-355): Jaro-Winkler
top 40, then the token narrowing, which keeps all 40 when the query has no
token or no candidate shares one. -/
def lexical_narrowed (jw : String → String → ℚ) (q_norm : String)
    (cat : List CatalogEntry) : List Nat :=
  let d_all := cat.map fun e => jw q_norm e.desc_norm
  let ord_idx := jw_top40 d_all
  let q_tokens := extract_tokens q_norm
  if q_tokens.length > 0 then
    let withTok := ord_idx.filter fun i => shares_token q_tokens (cat.getD i dummy_entry)
    if withTok.length = 0 then ord_idx else withTok
  else ord_idx

/-- `np.nanargmin` on a finite (no-`nan`) list: the index of the first
occurrence of the minimum, here as the head of the index sort whose ties
break by position (the same first-minimum index). -/
def argminIdx (l : List ℚ) : Nat :=
  ((List.range l.length).mergeSort (jw_order l)).headD 0

/-- `match_industry_to_sat` in the no-API-key configuration: empty inputs
and unknown person types fail to `none`; otherwise the lexical candidates
are computed and the minimum-distance candidate's `valor` is returned. -/
def match_industry_to_sat_nokey (jw : String → String → ℚ)
    (industry tipo_persona : String) (pf pm : List CatalogEntry) :
    Option String :=
  if industry = "" then none
  else
    let tp := pyLower tipo_persona
    if tp = "fisica" || tp = "moral" then
      let cat := if tp = "fisica" then pf else pm
      if cat.length = 0 then none
      else
        let q_norm := normalize_txt industry
        if q_norm = "" then none
        else
          let d_all := cat.map fun e => jw q_norm e.desc_norm
          let cand_idx := lexical_narrowed jw q_norm cat
          if cand_idx.length = 0 then none
          else
            let dists := cand_idx.map fun i => d_all.getD i 0
            some (cat.getD (cand_idx.getD (argminIdx dists) 0) dummy_entry).valor
    else none

/-! # Theorems -/

/-- C1: for every RFC string, `tipo_persona_from_rfc` returns "fisica"
exactly by alphanumeric length 13, "moral" by length 12, and no
classification for any other length. -/
theorem c1_tipo_persona_by_length (rfc : String) :
    ((alnumOnly rfc).length = 13 →
      tipo_persona_from_rfc (some rfc) = some "fisica") ∧
    ((alnumOnly rfc).length = 12 →
      tipo_persona_from_rfc (some rfc) = some "moral") ∧
    ((alnumOnly rfc).length ≠ 13 → (alnumOnly rfc).length ≠ 12 →
      tipo_persona_from_rfc (some rfc) = none) := by
  unfold tipo_persona_from_rfc
  refine ⟨fun h => ?_, fun h => ?_, fun h13 h12 => ?_⟩ <;> simp [*]

theorem c1_tipo_persona_by_length_witness :
    tipo_persona_from_rfc (some "GODE561231GR8") = some "fisica" ∧
    tipo_persona_from_rfc (some "ABC-850101-XX3") = some "moral" ∧
    tipo_persona_from_rfc (some "ABC") = none :=
  ⟨(c1_tipo_persona_by_length "GODE561231GR8").1 (by decide),
   (c1_tipo_persona_by_length "ABC-850101-XX3").2.1 (by decide),
   (c1_tipo_persona_by_length "ABC").2.2 (by decide) (by decide)⟩

/-- C5: century inference picks 1900+YY exactly when YY strictly exceeds
the current two-digit year and 2000+YY otherwise (so YY equal to the
current year maps to 2000+YY), and `birthday_from_rfc` on a 13-character
RFC formats the date with that century. -/
theorem c5_infer_century_birthday (cur : Nat) :
    (∀ yy y, intOfDigits yy = some y →
      infer_century cur yy = some (if cur < y then 1900 + y else 2000 + y) ∧
      (y = cur → infer_century cur yy = some (2000 + y))) ∧
    (∀ rfc y m d,
      (alnumOnly rfc).length = 13 →
      intOfDigits (String.mk (((alnumOnly rfc).toList.drop 4).take 2)) = some y →
      intOfDigits (String.mk (((alnumOnly rfc).toList.drop 6).take 2)) = some m →
      intOfDigits (String.mk (((alnumOnly rfc).toList.drop 8).take 2)) = some d →
      birthday_from_rfc cur (some rfc) =
        some (padNum 4 (if cur < y then 1900 + y else 2000 + y) ++ "-" ++
          padNum 2 m ++ "-" ++ padNum 2 d)) := by
  have hcent : ∀ yy y, intOfDigits yy = some y →
      infer_century cur yy = some (if cur < y then 1900 + y else 2000 + y) := by
    intro yy y h
    unfold infer_century
    rw [h]
    dsimp only
    rcases le_or_lt y cur with hle | hlt
    · rw [if_pos hle, if_neg (by omega)]
    · rw [if_neg (by omega), if_pos hlt]
  refine ⟨fun yy y h => ⟨hcent yy y h, fun heq => ?_⟩, fun rfc y m d hlen hy hm hd => ?_⟩
  · rw [hcent yy y h, if_neg (by omega)]
  · have hlen' : (alnumOnly rfc).toList.length = 13 := hlen
    simp only [birthday_from_rfc, Option.getD_some, hlen', hm, hd, hcent _ _ hy]
    simp

theorem c5_infer_century_birthday_witness :
    infer_century 26 "85" = some 1985 ∧
    infer_century 26 "26" = some 2026 ∧
    birthday_from_rfc 26 (some "GODE561231GR8") = some "1956-12-31" := by
  refine ⟨?_, ?_, ?_⟩
  · rw [((c5_infer_century_birthday 26).1 "85" 85 (by decide)).1]; decide
  · rw [((c5_infer_century_birthday 26).1 "26" 26 (by decide)).2 rfl]
  · rw [(c5_infer_century_birthday 26).2 "GODE561231GR8" 56 12 31
      (by decide) (by decide) (by decide) (by decide)]
    decide

/-- C9: the document-type classifier always answers "csf" or "cfdi"; it
answers "csf" when neither keyword set matches, and "csf" when both
match. -/
theorem c9_detect_doc_type (text : String) :
    (detect_doc_type text = "csf" ∨ detect_doc_type text = "cfdi") ∧
    (csf_keyword text = false → cfdi_keyword text = false →
      detect_doc_type text = "csf") ∧
    (csf_keyword text = true → cfdi_keyword text = true →
      detect_doc_type text = "csf") := by
  unfold detect_doc_type
  refine ⟨?_, fun h1 h2 => by simp [h1, h2], fun h1 h2 => by simp [h1]⟩
  by_cases h1 : csf_keyword text
  · simp [h1]
  · by_cases h2 : cfdi_keyword text <;> simp [h1, h2]

theorem c9_detect_doc_type_witness :
    detect_doc_type "CONSTANCIA DE SITUACION FISCAL uso CFDI" = "csf" ∧
    detect_doc_type "hola" = "csf" :=
  ⟨(c9_detect_doc_type "CONSTANCIA DE SITUACION FISCAL uso CFDI").2.2
      (by decide) (by decide),
   (c9_detect_doc_type "hola").2.1 (by decide) (by decide)⟩

/-- A fully populated record whose `Nombres` value is the literal string
"None": every field is a present string. -/
def c6_sentinel_row : Row :=
  { Nombres := some "None", last_name := some "PEREZ",
    second_last_name := some "LOPEZ", birthday_at := some "1985-01-01",
    RFC := some "ABC850101XXX", curp := some "PELO850101HDFRRN09",
    nationality := some "mexicana", industry := some "COMERCIO",
    industry_SAT := some "COMERCIO", codigo_postal := some "06600",
    province := some "CDMX", municipality := some "CUAUHTEMOC",
    neighborhood := some "JUAREZ", nombre_vialidad := some "REFORMA",
    numero_exterior := some "100", numero_interior := some "4",
    clave_pais := some "MX", contact_phone := some "+525512345678",
    contact_email := some "a@b.mx", created_at := some "2020-01-01" }

/-- C6 counterexample: a record with every field populated as a string is
NOT always read back unchanged from the finalized table: `as_char_df`
coerces any cell whose text is exactly "None" (and likewise "nan"/"NaN")
to the empty string, so the populated value "None" does not survive the
round trip. -/
theorem c6_roundtrip_counterexample :
    (∀ v ∈ rowValues c6_sentinel_row, v.isSome) ∧
    c6_sentinel_row.Nombres = some "None" ∧
    (to_df_as_char c6_sentinel_row).headD "?" = "" ∧
    to_df_as_char c6_sentinel_row ≠
      (rowValues c6_sentinel_row).map (fun v => v.getD "") := by
  refine ⟨by decide, rfl, by decide, by decide⟩

/-- C6 amended: the round trip `to_df` then `as_char_df` preserves every
populated field as long as no field value is one of the sentinel texts
"None", "nan", "NaN"; a cell for an absent field renders as the empty
string (every cell of the finalized table is a string). -/
theorem c6_roundtrip_amended (r : Row)
    (h : ∀ v ∈ rowValues r, ∃ s, v = some s ∧ s ≠ "None" ∧ s ≠ "nan" ∧ s ≠ "NaN") :
    to_df_as_char r = (rowValues r).map (fun v => v.getD "") ∧
    (∀ r2 : Row, ∀ v ∈ rowValues r2, v = none →
      as_char_cell (astype_str v) = "") := by
  constructor
  · unfold to_df_as_char
    apply List.map_congr_left
    intro v hv
    obtain ⟨s, rfl, h1, h2, h3⟩ := h v hv
    simp [astype_str, as_char_cell, h1, h2, h3]
  · intro r2 v _ hv
    subst hv
    rfl

theorem c6_roundtrip_amended_witness :
    to_df_as_char
      { c6_sentinel_row with Nombres := some "JUAN" } =
    (rowValues { c6_sentinel_row with Nombres := some "JUAN" }).map
      (fun v => v.getD "") :=
  (c6_roundtrip_amended _ (by decide)).1

/-- The extraction tail always sets nationality and country code. -/
theorem csf_extract_nationality (E : ReEngine) (cur : Nat) (text : String) :
    (csf_extract E cur text).row.nationality = some "mexicana" ∧
    (csf_extract E cur text).row.clave_pais = some "MX" := by
  unfold csf_extract
  dsimp only
  repeat' split
  all_goals exact ⟨rfl, rfl⟩

/-- The person-type post-processing never touches nationality or the
country code. -/
theorem csf_post_nationality (E : ReEngine) (tipo : String) (p : CsfParsed) :
    (csf_post E tipo p).nationality = p.row.nationality ∧
    (csf_post E tipo p).clave_pais = p.row.clave_pais := by
  have hm : ∀ q : CsfParsed, (csf_post_moral E tipo q).nationality = q.row.nationality ∧
      (csf_post_moral E tipo q).clave_pais = q.row.clave_pais := by
    intro q
    unfold csf_post_moral
    dsimp only
    repeat' split
    all_goals exact ⟨rfl, rfl⟩
  have hf : ∀ r : Row, (csf_post_fisica E tipo r).nationality = r.nationality ∧
      (csf_post_fisica E tipo r).clave_pais = r.clave_pais := by
    intro r
    unfold csf_post_fisica
    dsimp only
    repeat' split
    all_goals exact ⟨rfl, rfl⟩
  unfold csf_post
  exact ⟨((hf _).1).trans (hm p).1, ((hf _).2).trans (hm p).2⟩

/-- A record whose nationality reads "mexicana" is never empty. -/
theorem row_with_nationality_not_empty (r : Row)
    (h : r.nationality = some "mexicana") : row_is_empty r = false := by
  unfold row_is_empty all_empty rowValues
  split
  · rfl
  · simp [h]

/-- C10: every record the CSF parser produces (extraction block completed
without an internal exception) carries nationality "mexicana" and country
code "MX" regardless of what else was extracted; hence `row_is_empty` is
false on it and the empty-row condition that triggers the batch loop's
OCR retry cannot hold for such a document. -/
theorem c10_csf_never_empty (E : ReEngine) (cur : Nat) (text : String)
    (use_ocr : Bool) :
    (parse_csf_fields E cur text).row.nationality = some "mexicana" ∧
    (parse_csf_fields E cur text).row.clave_pais = some "MX" ∧
    row_is_empty (parse_csf_fields E cur text).row = false ∧
    (row_is_empty (parse_csf_fields E cur text).row && !use_ocr) = false := by
  have hnat : (parse_csf_fields E cur text).row.nationality = some "mexicana" := by
    unfold parse_csf_fields
    dsimp only
    rw [(csf_post_nationality E _ _).1,
      (csf_extract_nationality E cur (csf_label_fix E text)).1]
  have hpais : (parse_csf_fields E cur text).row.clave_pais = some "MX" := by
    unfold parse_csf_fields
    dsimp only
    rw [(csf_post_nationality E _ _).2,
      (csf_extract_nationality E cur (csf_label_fix E text)).2]
  have hemp := row_with_nationality_not_empty _ hnat
  exact ⟨hnat, hpais, hemp, by rw [hemp]; rfl⟩

/-- A concrete engine for which the CFDI receptor-name pattern (index 2)
matches a legal-entity style name and nothing else matches: only the
pattern containing both "Receptor" and "Nombre" at group 2 yields a
value. -/
def acme_engine : ReEngine where
  m := fun _ pat idx =>
    if idx = 2 && containsSub "Receptor" pat && containsSub "Nombre" pat then
      some "ACME SA DE CV"
    else none
  sub := fun _ _ s => s
  srch := fun _ _ => false
  findall3 := fun _ _ => []

/-- An engine on which nothing matches at all. -/
def null_engine : ReEngine where
  m := fun _ _ _ => none
  sub := fun _ _ s => s
  srch := fun _ _ => false
  findall3 := fun _ _ => []

/-- C2 counterexample: the CFDI parser's fallback when the RFC is absent
is NOT a decision based on the document's text content — it is the
constant "fisica".  On a document from which only the receptor name
"ACME SA DE CV" is extracted (no RFC), the program's own text-based
fallback (the CSF parser's, the only text-based person-type decision in
the program) classifies the record "moral", yet the CFDI parser returns
"fisica"; it returns "fisica" just the same for a document with no
extracted content at all. -/
theorem c2_counterexample :
    (parse_cfdi_fields acme_engine 26 "factura").row.RFC = none ∧
    (parse_cfdi_fields acme_engine 26 "factura").row.Nombres =
      some "ACME SA DE CV" ∧
    (parse_cfdi_fields acme_engine 26 "factura").tipo = "fisica" ∧
    csf_tipo_of (parse_cfdi_fields acme_engine 26 "factura").row = "moral" ∧
    (parse_cfdi_fields null_engine 26 "").tipo = "fisica" ∧
    ("fisica" : String) ≠ "moral" := by
  decide

/-- C2 amended: both parsers classify deterministically from RFC length
(13 characters: "fisica", 12: "moral").  When the RFC is absent or of any
other length, the CSF parser falls back to a decision on the extracted
text fields (a surname present: "fisica"; else a name present: "moral";
else "desconocido"), while the CFDI parser falls back to the constant
"fisica" regardless of the document's content; the parsers' results are
exactly these decisions applied to their extracted records. -/
theorem c2_person_type_amended (row : Row) (E : ReEngine) (cur : Nat)
    (text : String) :
    ((alnumOnly (row.RFC.getD "")).length = 13 →
      csf_tipo_of row = "fisica" ∧ cfdi_tipo_of row.RFC = "fisica") ∧
    ((alnumOnly (row.RFC.getD "")).length = 12 →
      csf_tipo_of row = "moral" ∧ cfdi_tipo_of row.RFC = "moral") ∧
    (tipo_persona_from_rfc row.RFC = none →
      cfdi_tipo_of row.RFC = "fisica" ∧
      csf_tipo_of row =
        (if safe_nzchar row.last_name || safe_nzchar row.second_last_name
         then "fisica"
         else if safe_nzchar row.Nombres then "moral" else "desconocido")) ∧
    (parse_csf_fields E cur text).tipo =
      csf_tipo_of (csf_extract E cur (csf_label_fix E text)).row ∧
    (parse_cfdi_fields E cur text).tipo =
      cfdi_tipo_of (parse_cfdi_fields E cur text).row.RFC := by
  have hsome : ∀ t, tipo_persona_from_rfc row.RFC = some t →
      csf_tipo_of row = t ∧ cfdi_tipo_of row.RFC = t := by
    intro t h
    unfold csf_tipo_of cfdi_tipo_of
    rw [h]
    exact ⟨rfl, rfl⟩
  refine ⟨fun h => ?_, fun h => ?_, fun h => ?_, rfl, rfl⟩
  · refine hsome "fisica" ?_
    unfold tipo_persona_from_rfc
    simp [h]
  · refine hsome "moral" ?_
    unfold tipo_persona_from_rfc
    simp [h]
  · unfold csf_tipo_of cfdi_tipo_of
    rw [h]
    exact ⟨rfl, rfl⟩

theorem c2_person_type_amended_witness :
    csf_tipo_of { RFC := some "GODE561231GR8" } = "fisica" ∧
    cfdi_tipo_of (some "ABC850101XX3") = "moral" ∧
    csf_tipo_of { Nombres := some "ACME SA DE CV" } = "moral" ∧
    cfdi_tipo_of none = "fisica" :=
  ⟨((c2_person_type_amended { RFC := some "GODE561231GR8" } null_engine 26 "").1
      (by decide)).1,
   ((c2_person_type_amended { RFC := some "ABC850101XX3" } null_engine 26 "").2.1
      (by decide)).2,
   (by rw [((c2_person_type_amended { Nombres := some "ACME SA DE CV" }
      null_engine 26 "").2.2.1 (by decide)).2]; decide),
   ((c2_person_type_amended { RFC := none } null_engine 26 "").2.2.1
      (by decide)).1⟩

/-- C4: for every text, anchor pattern, value pattern, window and
preference, both anchor-window extractors return no value when the anchor
does not match, and no value when no value pattern matches inside the
window around the anchor; as total functions of total match semantics
they cannot raise. -/
theorem c4_extract_near_none (mf vf : String → List Hit) (text : String)
    (anchor : String → Option Hit) (window : Nat) (prefer : String) :
    (anchor text = none →
      extract_money_near mf text anchor window prefer = (none, none) ∧
      extract_pct_near vf text anchor window prefer = (none, none)) ∧
    (∀ a, anchor text = some a →
      (mf (window_around_anchor text a.start a.stop window).1 = [] →
        (extract_money_near mf text anchor window prefer).1 = none) ∧
      (vf (window_around_anchor text a.start a.stop window).1 = [] →
        (extract_pct_near vf text anchor window prefer).1 = none)) := by
  constructor
  · intro h
    unfold extract_money_near extract_pct_near
    rw [h]
    exact ⟨rfl, rfl⟩
  · intro a ha
    constructor
    · intro hm
      unfold extract_money_near
      rw [ha]
      dsimp only
      rw [hm]
    · intro hp
      unfold extract_pct_near
      rw [ha]
      dsimp only
      rw [hp]

theorem c4_extract_near_none_witness :
    extract_money_near (fun _ => []) "texto" (fun _ => none) 1200 "nearest" =
      (none, none) ∧
    (extract_pct_near (fun _ => []) "texto" (fun _ => some ⟨0, 0, "x"⟩) 900
      "nearest").1 = none :=
  ⟨((c4_extract_near_none (fun _ => []) (fun _ => []) "texto" (fun _ => none)
      1200 "nearest").1 rfl).1,
   ((c4_extract_near_none (fun _ => []) (fun _ => []) "texto"
      (fun _ => some ⟨0, 0, "x"⟩) 900 "nearest").2 ⟨0, 0, "x"⟩ rfl).2 rfl⟩

/-- First-wins de-duplication only drops rows. -/
theorem mem_drop_duplicates_uuid (h : HeaderRow) :
    ∀ (rows : List HeaderRow) (seen : List (Option String)),
      h ∈ drop_duplicates_uuid rows seen → h ∈ rows := by
  intro rows
  induction rows with
  | nil => intro seen hh; simp [drop_duplicates_uuid] at hh
  | cons r rs ih =>
    intro seen hh
    unfold drop_duplicates_uuid at hh
    split at hh
    · exact List.mem_cons_of_mem _ (ih _ hh)
    · rcases List.mem_cons.mp hh with h1 | h2
      · exact h1 ▸ List.mem_cons_self _ _
      · exact List.mem_cons_of_mem _ (ih _ h2)

/-- C3: a header row whose emisor RFC equals the target RFC
(case-insensitively) is kept neither by the `headers_from_xml` supplier
filter nor by the `metrics_by_interval` row filter — in particular a
self-invoice, whose receptor RFC also equals the target, is excluded from
the proveedor aggregation by both. -/
theorem c3_factoraje_excludes_self (rfc : String) (rows : List HeaderRow) :
    (∀ h ∈ headers_from_xml_rows rfc rows,
      pyUpper (h.emisor_rfc.getD "") ≠ pyUpper rfc) ∧
    (∀ start_date end_date : Int,
      ∀ h ∈ metrics_row_filter rfc start_date end_date rows,
        pyUpper (h.emisor_rfc.getD "") ≠ pyUpper rfc) ∧
    (∀ h ∈ rows, pyUpper (h.receptor_rfc.getD "") = pyUpper rfc →
      pyUpper (h.emisor_rfc.getD "") = pyUpper rfc →
      h ∉ headers_from_xml_rows rfc rows ∧
      ∀ start_date end_date : Int,
        h ∉ metrics_row_filter rfc start_date end_date rows) := by
  have key1 : ∀ h ∈ headers_from_xml_rows rfc rows,
      pyUpper (h.emisor_rfc.getD "") ≠ pyUpper rfc := by
    intro h hh he
    have hf := mem_drop_duplicates_uuid h _ _ hh
    have hp := (List.mem_filter.mp hf).2
    rw [he] at hp
    simp at hp
  have key2 : ∀ (s e : Int), ∀ h ∈ metrics_row_filter rfc s e rows,
      pyUpper (h.emisor_rfc.getD "") ≠ pyUpper rfc := by
    intro s e h hh he
    have hp := (List.mem_filter.mp hh).2
    rw [he] at hp
    simp at hp
  refine ⟨key1, key2, fun h _ _ hemis => ⟨fun hmem => key1 h hmem hemis,
    fun s e hmem => key2 s e h hmem hemis⟩⟩

def c3_row_ok : HeaderRow :=
  ⟨some "u1", some "I", some "PUE", some 100, some 1, some "MXN", none,
   some "PROV010101AAA", some "Proveedor", some "HAY010101AAA", some "HayCash"⟩

/-- A self-invoice: emisor equal to the target RFC up to case. -/
def c3_row_self : HeaderRow :=
  ⟨some "u2", some "I", some "PUE", some 100, some 1, some "MXN", none,
   some "hay010101aaa", some "HayCash", some "HAY010101AAA", some "HayCash"⟩

theorem c3_factoraje_excludes_self_witness :
    pyUpper (c3_row_ok.emisor_rfc.getD "") ≠ pyUpper "HAY010101AAA" ∧
    c3_row_self ∉ headers_from_xml_rows "HAY010101AAA" [c3_row_ok, c3_row_self] ∧
    c3_row_self ∉ metrics_row_filter "HAY010101AAA" 0 200 [c3_row_ok, c3_row_self] :=
  ⟨(c3_factoraje_excludes_self "HAY010101AAA" [c3_row_ok, c3_row_self]).1
      c3_row_ok (by decide),
   ((c3_factoraje_excludes_self "HAY010101AAA" [c3_row_ok, c3_row_self]).2.2
      c3_row_self (by decide) (by decide) (by decide)).1,
   ((c3_factoraje_excludes_self "HAY010101AAA" [c3_row_ok, c3_row_self]).2.2
      c3_row_self (by decide) (by decide) (by decide)).2 0 200⟩

/-! ## Order facts for the matcher's index sort -/

theorem jw_order_trans (d : List ℚ) : ∀ a b c : Nat,
    jw_order d a b → jw_order d b c → jw_order d a c := by
  intro a b c hab hbc
  simp only [jw_order, decide_eq_true_eq] at *
  rcases hab with h1 | ⟨h1, h2⟩ <;> rcases hbc with h3 | ⟨h3, h4⟩
  · exact Or.inl (h1.trans h3)
  · exact Or.inl (h3 ▸ h1)
  · exact Or.inl (h1 ▸ h3)
  · exact Or.inr ⟨h1.trans h3, h2.trans h4⟩

theorem jw_order_total (d : List ℚ) : ∀ a b : Nat,
    jw_order d a b || jw_order d b a := by
  intro a b
  simp only [jw_order, Bool.or_eq_true, decide_eq_true_eq]
  rcases lt_trichotomy (d.getD a 0) (d.getD b 0) with h | h | h
  · exact Or.inl (Or.inl h)
  · rcases Nat.le_total a b with hle | hle
    · exact Or.inl (Or.inr ⟨h, hle⟩)
    · exact Or.inr (Or.inr ⟨h.symm, hle⟩)
  · exact Or.inr (Or.inl h)

theorem getD_mem_of_lt {α : Type} (l : List α) (n : Nat) (d : α)
    (h : n < l.length) : l.getD n d ∈ l := by
  induction l generalizing n with
  | nil => simp at h
  | cons a t ih =>
    cases n with
    | zero => exact List.mem_cons_self _ _
    | succ m =>
      exact List.mem_cons_of_mem _ (ih m (by simpa using h))

theorem getD_map_entry (f : CatalogEntry → ℚ) :
    ∀ (l : List CatalogEntry) (i : Nat), i < l.length →
      (l.map f).getD i 0 = f (l.getD i dummy_entry) := by
  intro l
  induction l with
  | nil => intro i h; simp at h
  | cons a t ih =>
    intro i h
    cases i with
    | zero => rfl
    | succ n =>
      simp only [List.map_cons, List.getD_cons_succ]
      exact ih n (by simpa using h)

theorem getD_map_nat (f : Nat → ℚ) :
    ∀ (l : List Nat) (t : Nat), t < l.length →
      (l.map f).getD t 0 = f (l.getD t 0) := by
  intro l
  induction l with
  | nil => intro t h; simp at h
  | cons a tl ih =>
    intro t h
    cases t with
    | zero => rfl
    | succ n =>
      simp only [List.map_cons, List.getD_cons_succ]
      exact ih n (by simpa using h)

theorem mem_dedupFirst (t : String) :
    ∀ (l seen : List String), t ∈ dedupFirst l seen → t ∈ l := by
  intro l
  induction l with
  | nil => intro seen h; simp [dedupFirst] at h
  | cons a tl ih =>
    intro seen h
    unfold dedupFirst at h
    split at h
    · exact List.mem_cons_of_mem _ (ih _ h)
    · rcases List.mem_cons.mp h with h1 | h2
      · exact h1 ▸ List.mem_cons_self _ _
      · exact List.mem_cons_of_mem _ (ih _ h2)

/-- The JW pre-filter keeps `min 40 n` in-range indices whose distances
are lower bounds for every index it drops. -/
theorem jw_top40_spec (d : List ℚ) :
    (jw_top40 d).length = min 40 d.length ∧
    (∀ i ∈ jw_top40 d, i < d.length) ∧
    (∀ i ∈ jw_top40 d, ∀ j, j < d.length → j ∉ jw_top40 d →
      d.getD i 0 ≤ d.getD j 0) := by
  unfold jw_top40
  have hperm : List.Perm ((List.range d.length).mergeSort (jw_order d))
      (List.range d.length) := List.mergeSort_perm _ _
  have hsorted :=
    List.sorted_mergeSort (jw_order_trans d) (jw_order_total d)
      (List.range d.length)
  refine ⟨?_, ?_, ?_⟩
  · rw [List.length_take, hperm.length_eq, List.length_range]
  · intro i hi
    have h1 := hperm.mem_iff.mp (List.mem_of_mem_take hi)
    simpa using h1
  · intro i hi j hj hnj
    have hjs : j ∈ (List.range d.length).mergeSort (jw_order d) :=
      hperm.mem_iff.mpr (by simpa using hj)
    rw [← List.take_append_drop 40
      ((List.range d.length).mergeSort (jw_order d))] at hjs
    have hjd : j ∈ ((List.range d.length).mergeSort (jw_order d)).drop 40 := by
      rcases List.mem_append.mp hjs with h | h
      · exact absurd h hnj
      · exact h
    have hpw := hsorted
    rw [← List.take_append_drop 40
      ((List.range d.length).mergeSort (jw_order d))] at hpw
    have hord := (List.pairwise_append.mp hpw).2.2 i hi j hjd
    simp only [jw_order, decide_eq_true_eq] at hord
    rcases hord with h | ⟨h, _⟩
    · exact le_of_lt h
    · exact le_of_eq h

/-- `argminIdx` really is a first minimum. -/
theorem argminIdx_spec (l : List ℚ) (hne : l ≠ []) :
    argminIdx l < l.length ∧
    ∀ j, j < l.length → l.getD (argminIdx l) 0 ≤ l.getD j 0 := by
  unfold argminIdx
  have hperm : List.Perm ((List.range l.length).mergeSort (jw_order l))
      (List.range l.length) := List.mergeSort_perm _ _
  have hsorted :=
    List.sorted_mergeSort (jw_order_trans l) (jw_order_total l)
      (List.range l.length)
  have hlen : ((List.range l.length).mergeSort (jw_order l)).length =
      l.length := by rw [hperm.length_eq, List.length_range]
  have hsne : (List.range l.length).mergeSort (jw_order l) ≠ [] := by
    intro h0
    apply hne
    have := hlen
    rw [h0] at this
    simpa using (List.length_eq_zero.mp this.symm)
  obtain ⟨a, t, hat⟩ := List.exists_cons_of_ne_nil hsne
  rw [hat]
  simp only [List.headD_cons]
  have ha : a ∈ List.range l.length := by
    rw [← hperm.mem_iff, hat]
    exact List.mem_cons_self _ _
  constructor
  · simpa using ha
  · intro j hj
    have hjs : j ∈ a :: t := by
      rw [← hat, hperm.mem_iff]
      simpa using hj
    rcases List.mem_cons.mp hjs with rfl | hjt
    · exact le_refl _
    · have hord := (List.pairwise_cons.mp (hat ▸ hsorted)).1 j hjt
      simp only [jw_order, decide_eq_true_eq] at hord
      rcases hord with h | ⟨h, _⟩
      · exact le_of_lt h
      · exact le_of_eq h

/-- The narrowed candidate set is a sub-collection of the top 40. -/
theorem lexical_narrowed_subset (jw : String → String → ℚ) (q_norm : String)
    (cat : List CatalogEntry) :
    ∀ i ∈ lexical_narrowed jw q_norm cat,
      i ∈ jw_top40 (cat.map fun e => jw q_norm e.desc_norm) := by
  intro i hi
  unfold lexical_narrowed at hi
  dsimp only at hi
  split at hi
  · split at hi
    · exact hi
    · exact (List.mem_filter.mp hi).1
  · exact hi

theorem lexical_narrowed_lt (jw : String → String → ℚ) (q_norm : String)
    (cat : List CatalogEntry) :
    ∀ i ∈ lexical_narrowed jw q_norm cat, i < cat.length := by
  intro i hi
  have h := (jw_top40_spec (cat.map fun e => jw q_norm e.desc_norm)).2.1 i
    (lexical_narrowed_subset jw q_norm cat i hi)
  simpa using h

theorem lexical_narrowed_ne_nil (jw : String → String → ℚ) (q_norm : String)
    (cat : List CatalogEntry) (hcat : cat ≠ []) :
    lexical_narrowed jw q_norm cat ≠ [] := by
  have htop : jw_top40 (cat.map fun e => jw q_norm e.desc_norm) ≠ [] := by
    intro h0
    have hl := (jw_top40_spec (cat.map fun e => jw q_norm e.desc_norm)).1
    rw [h0] at hl
    simp only [List.length_nil, List.length_map] at hl
    have hc : cat.length = 0 := by omega
    exact hcat (List.length_eq_zero.mp hc)
  unfold lexical_narrowed
  dsimp only
  split
  · split
    · exact htop
    · rename_i hfil
      intro h0
      exact hfil (by rw [h0]; rfl)
  · exact htop

/-- C8: the lexical stage first keeps the at-most-40 catalog entries
whose Jaro-Winkler distances to the normalized query are no larger than
any dropped entry's; the candidate set is then narrowed to candidates
sharing at least one (≥ 4 character) token with the query, and all 40 are
kept when the query has no such token or no candidate shares one. -/
theorem c8_lexical_stage (jw : String → String → ℚ) (q_norm : String)
    (cat : List CatalogEntry) :
    (jw_top40 (cat.map fun e => jw q_norm e.desc_norm)).length =
      min 40 cat.length ∧
    (∀ i ∈ jw_top40 (cat.map fun e => jw q_norm e.desc_norm),
      i < cat.length) ∧
    (∀ i ∈ jw_top40 (cat.map fun e => jw q_norm e.desc_norm),
      ∀ j, j < cat.length →
        j ∉ jw_top40 (cat.map fun e => jw q_norm e.desc_norm) →
        jw q_norm (cat.getD i dummy_entry).desc_norm ≤
          jw q_norm (cat.getD j dummy_entry).desc_norm) ∧
    (∀ t ∈ extract_tokens q_norm, 4 ≤ t.length) ∧
    (extract_tokens q_norm = [] →
      lexical_narrowed jw q_norm cat =
        jw_top40 (cat.map fun e => jw q_norm e.desc_norm)) ∧
    ((jw_top40 (cat.map fun e => jw q_norm e.desc_norm)).filter
        (fun i => shares_token (extract_tokens q_norm)
          (cat.getD i dummy_entry)) = [] →
      lexical_narrowed jw q_norm cat =
        jw_top40 (cat.map fun e => jw q_norm e.desc_norm)) ∧
    (extract_tokens q_norm ≠ [] →
      (jw_top40 (cat.map fun e => jw q_norm e.desc_norm)).filter
        (fun i => shares_token (extract_tokens q_norm)
          (cat.getD i dummy_entry)) ≠ [] →
      lexical_narrowed jw q_norm cat =
        (jw_top40 (cat.map fun e => jw q_norm e.desc_norm)).filter
          (fun i => shares_token (extract_tokens q_norm)
            (cat.getD i dummy_entry)) ∧
      ∀ i ∈ lexical_narrowed jw q_norm cat,
        shares_token (extract_tokens q_norm) (cat.getD i dummy_entry) = true) := by
  have hspec := jw_top40_spec (cat.map fun e => jw q_norm e.desc_norm)
  have hlt : ∀ i ∈ jw_top40 (cat.map fun e => jw q_norm e.desc_norm),
      i < cat.length := by
    intro i hi
    have := hspec.2.1 i hi
    simpa using this
  refine ⟨?_, hlt, ?_, ?_, ?_, ?_, ?_⟩
  · rw [hspec.1, List.length_map]
  · intro i hi j hj hnj
    have h := hspec.2.2 i hi j (by simpa using hj) hnj
    rwa [getD_map_entry _ cat i (hlt i hi), getD_map_entry _ cat j hj] at h
  · intro t ht
    unfold extract_tokens at ht
    split at ht
    · simp at ht
    · have := mem_dedupFirst t _ _ ht
      have := (List.mem_filter.mp this).2
      exact of_decide_eq_true this
  · intro h
    unfold lexical_narrowed
    dsimp only
    rw [h]
    simp
  · intro hfil
    unfold lexical_narrowed
    dsimp only
    rw [hfil]
    simp
  · intro htok hfil
    have h1 : (extract_tokens q_norm).length > 0 := List.length_pos.mpr htok
    have h2 : ¬ ((jw_top40 (cat.map fun e => jw q_norm e.desc_norm)).filter
        (fun i => shares_token (extract_tokens q_norm)
          (cat.getD i dummy_entry))).length = 0 := by
      intro h0
      exact hfil (List.length_eq_zero.mp h0)
    have heq : lexical_narrowed jw q_norm cat =
        (jw_top40 (cat.map fun e => jw q_norm e.desc_norm)).filter
          (fun i => shares_token (extract_tokens q_norm)
            (cat.getD i dummy_entry)) := by
      unfold lexical_narrowed
      dsimp only
      rw [if_pos h1, if_neg h2]
    refine ⟨heq, fun i hi => ?_⟩
    rw [heq] at hi
    exact (List.mem_filter.mp hi).2

/-- A 41-entry catalog (descriptions `"A"`, `"AA"`, …), so that the
pre-filter actually drops an entry. -/
def c8_cat : List CatalogEntry :=
  (List.range 41).map fun k => load_entry (String.mk (List.replicate (k + 1) 'A'))

def c8_jw : String → String → ℚ := fun _ b => (b.length : ℚ)

unseal List.merge List.mergeSort in
theorem c8_lexical_stage_witness :
    lexical_narrowed c8_jw "AB" c8_cat =
      jw_top40 (c8_cat.map fun e => c8_jw "AB" e.desc_norm) ∧
    lexical_narrowed c8_jw "ROPA" c8_cat =
      jw_top40 (c8_cat.map fun e => c8_jw "ROPA" e.desc_norm) ∧
    c8_jw "ROPA" (c8_cat.getD 0 dummy_entry).desc_norm ≤
      c8_jw "ROPA" (c8_cat.getD 40 dummy_entry).desc_norm :=
  ⟨(c8_lexical_stage c8_jw "AB" c8_cat).2.2.2.2.1 (by decide),
   (c8_lexical_stage c8_jw "ROPA" c8_cat).2.2.2.2.2.1 (by decide),
   (c8_lexical_stage c8_jw "ROPA" c8_cat).2.2.1 0 (by decide) 40
     (by decide) (by decide)⟩

/-- C7: with no API key configured the matcher consists of exactly the
lexical stages (the embedding stage and the LLM tie-break are statically
absent from the no-key path, hence skipped without error): for every
non-empty query whose normalization is non-empty, every valid person
type and non-empty catalog, it returns the `valor` of a narrowed
candidate of minimum Jaro-Winkler distance to the normalized query.  In
particular "VENTA DE ROPA AL POR MENOR" against a natural-person catalog
containing "COMERCIO AL POR MENOR DE ROPA, BISUTERÍA Y ACCESORIOS DE
VESTIR" returns that entry whatever the distance function values are. -/
theorem c7_nokey_min_distance (jw : String → String → ℚ)
    (industry tipo_persona : String) (pf pm : List CatalogEntry) :
    (industry ≠ "" →
     normalize_txt industry ≠ "" →
     (pyLower tipo_persona = "fisica" ∨ pyLower tipo_persona = "moral") →
     (if pyLower tipo_persona = "fisica" then pf else pm) ≠ [] →
     ∃ k, k ∈ lexical_narrowed jw (normalize_txt industry)
           (if pyLower tipo_persona = "fisica" then pf else pm) ∧
       match_industry_to_sat_nokey jw industry tipo_persona pf pm =
         some (((if pyLower tipo_persona = "fisica" then pf else pm).getD k
           dummy_entry).valor) ∧
       ∀ j ∈ lexical_narrowed jw (normalize_txt industry)
           (if pyLower tipo_persona = "fisica" then pf else pm),
         jw (normalize_txt industry)
             (((if pyLower tipo_persona = "fisica" then pf else pm).getD k
               dummy_entry).desc_norm) ≤
           jw (normalize_txt industry)
             (((if pyLower tipo_persona = "fisica" then pf else pm).getD j
               dummy_entry).desc_norm)) ∧
    match_industry_to_sat_nokey jw "VENTA DE ROPA AL POR MENOR" "fisica"
      [load_entry
        "COMERCIO AL POR MENOR DE ROPA, BISUTERÍA Y ACCESORIOS DE VESTIR"]
      [] =
    some "COMERCIO AL POR MENOR DE ROPA, BISUTERÍA Y ACCESORIOS DE VESTIR" := by
  have hgen : ∀ (ind tp : String) (cpf cpm : List CatalogEntry),
      ind ≠ "" → normalize_txt ind ≠ "" →
      (pyLower tp = "fisica" ∨ pyLower tp = "moral") →
      (if pyLower tp = "fisica" then cpf else cpm) ≠ [] →
      ∃ k, k ∈ lexical_narrowed jw (normalize_txt ind)
            (if pyLower tp = "fisica" then cpf else cpm) ∧
        match_industry_to_sat_nokey jw ind tp cpf cpm =
          some (((if pyLower tp = "fisica" then cpf else cpm).getD k
            dummy_entry).valor) ∧
        ∀ j ∈ lexical_narrowed jw (normalize_txt ind)
            (if pyLower tp = "fisica" then cpf else cpm),
          jw (normalize_txt ind)
              (((if pyLower tp = "fisica" then cpf else cpm).getD k
                dummy_entry).desc_norm) ≤
            jw (normalize_txt ind)
              (((if pyLower tp = "fisica" then cpf else cpm).getD j
                dummy_entry).desc_norm) := by
    intro ind tp cpf cpm hind hq htp hcat
    set cat := (if pyLower tp = "fisica" then cpf else cpm) with hcatdef
    set q := normalize_txt ind with hqdef
    set D := cat.map (fun e => jw q e.desc_norm) with hD
    set nar := lexical_narrowed jw q cat with hnar
    set dists := nar.map (fun i => D.getD i 0) with hdists
    have hnarne : nar ≠ [] := lexical_narrowed_ne_nil jw q cat hcat
    have hdne : dists ≠ [] := by
      rw [hdists]
      intro h0
      exact hnarne (List.map_eq_nil_iff.mp h0)
    have hargmin := argminIdx_spec dists hdne
    have hknar : nar.getD (argminIdx dists) 0 ∈ nar := by
      apply getD_mem_of_lt
      have := hargmin.1
      rwa [hdists, List.length_map] at this
    have hmatch : match_industry_to_sat_nokey jw ind tp cpf cpm =
        some ((cat.getD (nar.getD (argminIdx dists) 0) dummy_entry).valor) := by
      unfold match_industry_to_sat_nokey
      rw [if_neg hind]
      have htp2 : (pyLower tp = "fisica" || pyLower tp = "moral") = true := by
        rcases htp with h | h <;> simp [h]
      dsimp only
      rw [if_pos htp2, if_neg (fun h0 => hcat (List.length_eq_zero.mp h0)),
        if_neg hq,
        if_neg (fun h0 => hnarne (List.length_eq_zero.mp h0))]
    refine ⟨nar.getD (argminIdx dists) 0, hknar, hmatch, ?_⟩
    intro j hj
    obtain ⟨⟨t, ht⟩, hget⟩ := List.mem_iff_get.mp hj
    have htd : t < dists.length := by rw [hdists, List.length_map]; exact ht
    have hmin := hargmin.2 t htd
    have e1 : dists.getD (argminIdx dists) 0 =
        D.getD (nar.getD (argminIdx dists) 0) 0 := by
      rw [hdists]
      exact getD_map_nat _ nar (argminIdx dists)
        (by rw [hdists, List.length_map] at hargmin; exact hargmin.1)
    have e2 : dists.getD t 0 = D.getD (nar.getD t 0) 0 := by
      rw [hdists]
      exact getD_map_nat _ nar t ht
    have e3 : nar.getD t 0 = j := by
      rw [List.getD_eq_getElem _ _ ht]
      rw [← hget]
      simp
    rw [e1, e2, e3] at hmin
    have hk_lt := lexical_narrowed_lt jw q cat _ hknar
    have hj_lt := lexical_narrowed_lt jw q cat j hj
    rwa [hD, getD_map_entry _ cat _ hk_lt, getD_map_entry _ cat j hj_lt]
      at hmin
  refine ⟨fun hind hq htp hcat => hgen industry tipo_persona pf pm hind hq htp hcat, ?_⟩
  have hfis : pyLower "fisica" = "fisica" := by decide
  obtain ⟨k, hk, hres, _⟩ := hgen "VENTA DE ROPA AL POR MENOR" "fisica"
    [load_entry
      "COMERCIO AL POR MENOR DE ROPA, BISUTERÍA Y ACCESORIOS DE VESTIR"] []
    (by decide) (by decide) (Or.inl hfis) (by rw [if_pos hfis]; simp)
  have hk_lt := lexical_narrowed_lt _ _ _ _ hk
  rw [if_pos hfis] at hk_lt
  simp only [List.length_singleton] at hk_lt
  have hk0 : k = 0 := Nat.lt_one_iff.mp hk_lt
  rw [hres, hk0, if_pos hfis]
  rfl

def c7_jw : String → String → ℚ := fun _ _ => 0

def c7_cat : List CatalogEntry :=
  [load_entry "COMERCIO AL POR MENOR DE ROPA, BISUTERÍA Y ACCESORIOS DE VESTIR",
   load_entry "SERVICIOS DE CONSULTORIA"]

theorem c7_nokey_min_distance_witness :
    ∃ k, k ∈ lexical_narrowed c7_jw (normalize_txt "VENTA DE ROPA AL POR MENOR")
          (if pyLower "FISICA" = "fisica" then c7_cat else []) ∧
      match_industry_to_sat_nokey c7_jw "VENTA DE ROPA AL POR MENOR" "FISICA"
          c7_cat [] =
        some (((if pyLower "FISICA" = "fisica" then c7_cat else []).getD k
          dummy_entry).valor) ∧
      ∀ j ∈ lexical_narrowed c7_jw (normalize_txt "VENTA DE ROPA AL POR MENOR")
          (if pyLower "FISICA" = "fisica" then c7_cat else []),
        c7_jw (normalize_txt "VENTA DE ROPA AL POR MENOR")
            (((if pyLower "FISICA" = "fisica" then c7_cat else []).getD k
              dummy_entry).desc_norm) ≤
          c7_jw (normalize_txt "VENTA DE ROPA AL POR MENOR")
            (((if pyLower "FISICA" = "fisica" then c7_cat else []).getD j
              dummy_entry).desc_norm) :=
  (c7_nokey_min_distance c7_jw "VENTA DE ROPA AL POR MENOR" "FISICA" c7_cat
    []).1 (by decide) (by decide) (Or.inl (by decide)) (by decide)
